import Mathlib

/-
Verification of the motion-on-scroll scroll-trigger engine.

Shallow embedding of the library's core modules:
  - helpers/scroll-handler.ts   (updateElementAnimationState, processScrollEvent)
  - helpers/animations.ts       (ensureAnimationControls, play, reverse, completions)
  - helpers/keyframes.ts        (resolveKeyframes, getKeyframesWithDistance)
  - helpers/easing.ts           (resolveEasing) and the scroll-tracker direction logic
  - helpers/elements.ts         (prepareElements) and scroll-handler observeElement
  - helpers/utils.ts            (isDisabled)
JS numbers are modelled as rationals; all comparisons and arithmetic the code
performs on them (comparison, +, -, negation, halving) are exact on the values
considered.
-/

namespace MOS

/-- Resolved per-element configuration (helpers/types.ts, ElementOptions).
Only the fields read by the modules under verification are carried; the
remaining configuration fields (duration, delay, timeUnits, anchor,
throttleDelay, debounceDelay, ...) are never consulted by the functions
modelled here.  distance and easing are non-optional in the TS interface
(MosOptions.distance : number, MosOptions.easing : string). -/
structure ElementOptions where
  /-- animation preset name (options.keyframes) -/
  keyframes : String
  /-- pixel travel distance for directional presets -/
  distance : ℚ
  /-- easing string; "" models a falsy easing value -/
  easing : String
  /-- once-only flag -/
  once : Bool
  /-- mirror flag -/
  mirror : Bool
  /-- configured pixel offset -/
  offset : ℚ
deriving DecidableEq

/-- Defaults from helpers/constants.ts DEFAULT_OPTIONS (fields used here). -/
structure MosDefaultOptions where
  offset : ℚ
  duration : ℚ
  distance : ℚ
  delay : ℚ
  easing : String
  once : Bool

/-- helpers/constants.ts DEFAULT_OPTIONS. -/
def DEFAULT_OPTIONS : MosDefaultOptions :=
  { offset := 120, duration := 400, distance := 100, delay := 0
    easing := "ease", once := false }

/-- Scroll direction reported by the scroll tracker (helpers/scroll-tracker.ts). -/
inductive ScrollDirection
  | up
  | down
  | none
deriving DecidableEq

/-- Direction step of the throttled scroll handler, helpers/easing.ts
(handleScrollInternal, the scroll-tracker variant concatenated into easing.ts)
and helpers/scroll-tracker.ts (handleScroll body).  Input: the recorded
lastScrollY and the freshly read window.scrollY.  Output: the new
currentDirection and the new lastScrollY (written unconditionally). -/
def handleScrollInternal (lastScrollY currentScrollY : ℚ) : ScrollDirection × ℚ :=
  ( if lastScrollY < currentScrollY ∧ 0 < currentScrollY then ScrollDirection.down
    else if currentScrollY < lastScrollY then ScrollDirection.up
    else ScrollDirection.none,
    currentScrollY )

/-- One keyframe track [from, to] per animatable property, mirroring the
DOMKeyframesDefinition objects built in helpers/constants.ts and
helpers/keyframes.ts.  A field is none when the preset does not touch that
property. -/
structure Keyframes where
  opacity : Option (ℚ × ℚ) := Option.none
  translateX : Option (ℚ × ℚ) := Option.none
  translateY : Option (ℚ × ℚ) := Option.none
  scale : Option (ℚ × ℚ) := Option.none
  rotateX : Option (ℚ × ℚ) := Option.none
  rotateY : Option (ℚ × ℚ) := Option.none
  perspective : Option (ℚ × ℚ) := Option.none
deriving DecidableEq

/-- helpers/constants.ts KEYFRAMES_PRESETS, the built-in preset table,
as an association list (object-key lookup becomes List.lookup). -/
def KEYFRAMES_PRESETS : List (String × Keyframes) :=
  [ ("fade", { opacity := some (0, 1) }),
    ("fade-up", { opacity := some (0, 1), translateY := some (100, 0) }),
    ("fade-down", { opacity := some (0, 1), translateY := some (-100, 0) }),
    ("fade-left", { opacity := some (0, 1), translateX := some (100, 0) }),
    ("fade-right", { opacity := some (0, 1), translateX := some (-100, 0) }),
    ("fade-up-right",
      { opacity := some (0, 1), translateY := some (100, 0), translateX := some (-100, 0) }),
    ("fade-up-left",
      { opacity := some (0, 1), translateY := some (100, 0), translateX := some (100, 0) }),
    ("fade-down-right",
      { opacity := some (0, 1), translateY := some (-100, 0), translateX := some (-100, 0) }),
    ("fade-down-left",
      { opacity := some (0, 1), translateY := some (-100, 0), translateX := some (100, 0) }),
    ("flip-up", { perspective := some (2500, 2500), rotateX := some (-100, 0) }),
    ("flip-down", { perspective := some (2500, 2500), rotateX := some (100, 0) }),
    ("flip-left", { perspective := some (2500, 2500), rotateY := some (100, 0) }),
    ("flip-right", { perspective := some (2500, 2500), rotateY := some (-100, 0) }),
    ("slide-up", { translateY := some (100, 0) }),
    ("slide-down", { translateY := some (-100, 0) }),
    ("slide-left", { translateX := some (100, 0) }),
    ("slide-right", { translateX := some (-100, 0) }),
    ("zoom-in", { opacity := some (0, 1), scale := some (6/10, 1) }),
    ("zoom-in-up",
      { opacity := some (0, 1), scale := some (6/10, 1), translateY := some (100, 0) }),
    ("zoom-in-down",
      { opacity := some (0, 1), scale := some (6/10, 1), translateY := some (-100, 0) }),
    ("zoom-in-left",
      { opacity := some (0, 1), scale := some (6/10, 1), translateX := some (100, 0) }),
    ("zoom-in-right",
      { opacity := some (0, 1), scale := some (6/10, 1), translateX := some (-100, 0) }),
    ("zoom-out", { opacity := some (0, 1), scale := some (12/10, 1) }),
    ("zoom-out-up",
      { opacity := some (0, 1), scale := some (12/10, 1), translateY := some (100, 0) }),
    ("zoom-out-down",
      { opacity := some (0, 1), scale := some (12/10, 1), translateY := some (-100, 0) }),
    ("zoom-out-left",
      { opacity := some (0, 1), scale := some (12/10, 1), translateX := some (100, 0) }),
    ("zoom-out-right",
      { opacity := some (0, 1), scale := some (12/10, 1), translateX := some (-100, 0) }) ]

/-- The base "fade" preset, KEYFRAMES_PRESETS.fade. -/
def fadePreset : Keyframes := { opacity := some (0, 1) }

/-- helpers/keyframes.ts resolveKeyframes: user-registered presets first
(customKeyframes module state, passed explicitly), then built-ins, then the
base "fade" preset. -/
def resolveKeyframes (customKeyframes : List (String × Keyframes)) (name : String) : Keyframes :=
  match List.lookup name customKeyframes with
  | some k => k
  | Option.none =>
    match List.lookup name KEYFRAMES_PRESETS with
    | some k => k
    | Option.none => fadePreset

/-- helpers/keyframes.ts getKeyframesWithDistance: the switch on
opts.keyframes substituting the configured distance into the relevant
translate axis.  Unlisted preset names fall through and keep
resolvedKeyframes. -/
def getKeyframesWithDistance (opts : ElementOptions) (resolvedKeyframes : Keyframes) :
    Keyframes :=
  match opts.keyframes with
  | "fade-up" => { opacity := some (0, 1), translateY := some (opts.distance, 0) }
  | "fade-down" => { opacity := some (0, 1), translateY := some (-opts.distance, 0) }
  | "fade-left" => { opacity := some (0, 1), translateX := some (-opts.distance, 0) }
  | "fade-right" => { opacity := some (0, 1), translateX := some (opts.distance, 0) }
  | "fade-up-right" =>
    { opacity := some (0, 1), translateY := some (opts.distance, 0),
      translateX := some (opts.distance, 0) }
  | "fade-up-left" =>
    { opacity := some (0, 1), translateY := some (opts.distance, 0),
      translateX := some (-opts.distance, 0) }
  | "fade-down-right" =>
    { opacity := some (0, 1), translateY := some (-opts.distance, 0),
      translateX := some (opts.distance, 0) }
  | "fade-down-left" =>
    { opacity := some (0, 1), translateY := some (-opts.distance, 0),
      translateX := some (-opts.distance, 0) }
  | "slide-up" => { translateY := some (opts.distance, 0) }
  | "slide-down" => { translateY := some (-opts.distance, 0) }
  | "slide-left" => { translateX := some (-opts.distance, 0) }
  | "slide-right" => { translateX := some (opts.distance, 0) }
  | "zoom-in-up" => { resolvedKeyframes with translateY := some (opts.distance, 0) }
  | "zoom-out-up" => { resolvedKeyframes with translateY := some (opts.distance, 0) }
  | "zoom-in-down" => { resolvedKeyframes with translateY := some (-opts.distance, 0) }
  | "zoom-out-down" => { resolvedKeyframes with translateY := some (-opts.distance, 0) }
  | "zoom-in-left" => { resolvedKeyframes with translateX := some (-opts.distance, 0) }
  | "zoom-out-left" => { resolvedKeyframes with translateX := some (-opts.distance, 0) }
  | "zoom-in-right" => { resolvedKeyframes with translateX := some (opts.distance, 0) }
  | "zoom-out-right" => { resolvedKeyframes with translateX := some (opts.distance, 0) }
  | _ => resolvedKeyframes

/-- helpers/animations.ts resolveAnimationKeyframes: resolve the preset,
then apply the configured distance only when it differs from the library
default (the source's additional "distance != null" guard is vacuous under
the declared type MosOptions.distance : number). -/
def resolveAnimationKeyframes (customKeyframes : List (String × Keyframes))
    (options : ElementOptions) : Keyframes :=
  let resolvedKeyframes := resolveKeyframes customKeyframes options.keyframes
  if options.distance ≠ DEFAULT_OPTIONS.distance then
    getKeyframesWithDistance options resolvedKeyframes
  else
    resolvedKeyframes

/-- The two trigger thresholds of a tracked element
(helpers/types.ts MosElement.position).  out is the number | false union:
none models the disabled sentinel false.  The source's additional
"!== undefined" guards are vacuous under the declared types. -/
structure TriggerPosition where
  /-- position.in: scroll position where the element should animate in -/
  inPos : ℚ
  /-- position.out: scroll position where it should animate out, none = false -/
  out : Option ℚ
deriving DecidableEq

/-- A tracked element of the scroll handler
(helpers/types.ts MosElement; the DOM node reference is irrelevant to the
trigger policy and omitted here). -/
structure MosElement where
  options : ElementOptions
  position : TriggerPosition
  animated : Bool
  isReversing : Bool
deriving DecidableEq

/-- External call the scroll handler can issue on an element during a tick:
reverse(element, callback) or play(element, options) of helpers/animations.ts. -/
inductive EngineCall
  | reverse
  | play
deriving DecidableEq

/-- hideElement closure inside updateElementAnimationState
(helpers/scroll-handler.ts): no-op unless currently animated and not already
reversing; otherwise calls reverse(element, callback) and marks the element
as reversing.  The registered callback is modelled by
reverseAnimationCompletion below. -/
def hideElement (elementData : MosElement) : MosElement × Option EngineCall :=
  if !elementData.animated || elementData.isReversing then
    (elementData, Option.none)
  else
    ({ elementData with isReversing := true }, some EngineCall.reverse)

/-- showElement closure inside updateElementAnimationState
(helpers/scroll-handler.ts): no-op when already animated and not reversing;
otherwise calls play(element, options) and sets animated := true,
isReversing := false. -/
def showElement (elementData : MosElement) : MosElement × Option EngineCall :=
  if elementData.animated && !elementData.isReversing then
    (elementData, Option.none)
  else
    ({ elementData with animated := true, isReversing := false }, some EngineCall.play)

/-- scrollY >= position.out with the disabled sentinel treated as
unreachable (the "position.out !== false" limb of the first condition). -/
def outReached (out : Option ℚ) (scrollY : ℚ) : Bool :=
  match out with
  | some o => decide (o ≤ scrollY)
  | Option.none => false

/-- helpers/scroll-handler.ts updateElementAnimationState: the first-match
decision policy applied to one tracked element at the given scroll
position.  Returns the updated element together with the external
animation call it issued, if any. -/
def updateElementAnimationState (elementData : MosElement) (scrollY : ℚ) :
    MosElement × Option EngineCall :=
  if elementData.options.mirror && outReached elementData.position.out scrollY
      && !elementData.options.once then
    hideElement elementData
  else if decide (elementData.position.inPos ≤ scrollY) then
    showElement elementData
  else if elementData.animated && !elementData.options.once then
    hideElement elementData
  else
    (elementData, Option.none)

/-- helpers/scroll-handler.ts processScrollEvent: window.scrollY is read
once and every tracked element is updated against that single reading. -/
def processScrollEvent (trackedElements : List MosElement) (currentScrollY : ℚ) :
    List MosElement :=
  trackedElements.map (fun elementData => (updateElementAnimationState elementData currentScrollY).1)

/-- Completion of a reverse animation, merged view of
helpers/animations.ts setupAnimationCompletionHandler (which dispatches on
isReversing) with handleReverseAnimationCompletion invoking the callback
registered by hideElement (which resets elementData.animated and
elementData.isReversing).  When the element is no longer reversing at fire
time (a forward play superseded the reverse) its flags are left alone. -/
def reverseAnimationCompletion (elementData : MosElement) : MosElement :=
  if elementData.isReversing then
    { elementData with animated := false, isReversing := false }
  else
    elementData

/-- Iterated scroll ticks on one element, recording whether any tick ever
issued a reverse call (helpers/scroll-handler.ts processScrollEvent applied
to a sequence of scroll positions). -/
def runScrollSequence (elementData : MosElement) (positions : List ℚ) :
    MosElement × Bool :=
  positions.foldl
    (fun acc y =>
      let step := updateElementAnimationState acc.1 y
      (step.1, acc.2 || decide (step.2 = some EngineCall.reverse)))
    (elementData, false)

/-- The animation engine's playback controller
(motion's AnimationPlaybackControls as consumed by helpers/animations.ts:
play(), pause(), stop(), complete(), speed, time, finished).  play/pause
toggle the playing flag without touching the internal clock; only an
explicit "controls.time = 0" write moves time in the code under
verification.  id records which factory invocation built the handle. -/
structure Handle where
  time : ℚ
  speed : ℚ
  playing : Bool
  stopped : Bool
  completed : Bool
  id : ℕ
deriving DecidableEq

/-- helpers/animations.ts ElementAnimationState: the per-element record in
the elementAnimationStates WeakMap.  reverseCallback models presence of the
stored reverse-completion callback. -/
structure ElementAnimationState where
  animated : Bool
  isReversing : Bool
  controls : Option Handle
  reverseCallback : Bool
deriving DecidableEq

/-- Per-element slice of the helpers/animations.ts module state:
the elementAnimationStates WeakMap entry, membership in the
activeAnimations WeakMap, and a count of animate-factory invocations
made for this element. -/
structure AnimModuleState where
  state : Option ElementAnimationState
  active : Bool
  createCount : ℕ
deriving DecidableEq

/-- helpers/animations.ts createAnimationControls (via createKeyframeAnimation
or a registered custom factory): builds a fresh handle with the motion
animate factory.  Construction failure (a falsy factory result) is not
modelled; the claims under verification only concern the success path. -/
def createAnimationControls (s : AnimModuleState) : Handle × AnimModuleState :=
  ( { time := 0, speed := 1, playing := false, stopped := false, completed := false
      id := s.createCount },
    { s with createCount := s.createCount + 1 } )

/-- helpers/animations.ts ensureAnimationControls: return the existing
controls when present; otherwise create controls once and store a fresh
state record with them. -/
def ensureAnimationControls (s : AnimModuleState) : AnimModuleState × Option Handle :=
  match s.state.bind (fun st => st.controls) with
  | some controls => (s, some controls)
  | Option.none =>
    let created := createAnimationControls s
    ( { created.2 with
        state := some
          { animated := false, isReversing := false, controls := some created.1
            reverseCallback := false } },
      some created.1 )

/-- helpers/animations.ts play(element, options): ensure controls, then
no-op when the element is actively animating and not reversing; otherwise
set speed to 1, invoke controls.play(), mark animated, clear isReversing
and record the element as actively animating. -/
def play (s : AnimModuleState) : AnimModuleState :=
  let ensured := ensureAnimationControls s
  match ensured.2 with
  | Option.none => ensured.1
  | some controls =>
    match ensured.1.state with
    | Option.none => ensured.1
    | some st =>
      if ensured.1.active && !st.isReversing then ensured.1
      else
        { ensured.1 with
          state := some
            { st with
              animated := true
              isReversing := false
              controls := some { controls with speed := 1, playing := true } },
          active := true }

/-- helpers/animations.ts reverse(element, onComplete): no-op without an
existing state carrying controls; otherwise mark reversing, set speed to -1,
invoke controls.play(), store the callback when given, and record the
element as actively animating. -/
def reverse (s : AnimModuleState) (withCallback : Bool) : AnimModuleState :=
  match s.state with
  | Option.none => s
  | some st =>
    match st.controls with
    | Option.none => s
    | some controls =>
      { s with
        state := some
          { st with
            isReversing := true
            controls := some { controls with speed := -1, playing := true }
            reverseCallback := if withCallback then true else st.reverseCallback },
        active := true }

/-- helpers/animations.ts setupAnimationCompletionHandler's finished
handler: dispatches on isReversing to handleReverseAnimationCompletion
(clock reset to 0, pause, drop from activeAnimations, flags cleared,
stored callback consumed) or handleForwardAnimationCompletion (stop the
handle permanently when options.once, drop from activeAnimations). -/
def animationFinished (options : ElementOptions) (s : AnimModuleState) : AnimModuleState :=
  match s.state with
  | Option.none => s
  | some st =>
    if st.isReversing then
      { s with
        state := some
          { st with
            animated := false
            isReversing := false
            controls := st.controls.map (fun c => { c with time := 0, playing := false })
            reverseCallback := false },
        active := false }
    else
      { s with
        state := some
          { st with
            controls :=
              if options.once then st.controls.map (fun c => { c with stopped := true })
              else st.controls },
        active := false }

/-- The controls currently stored for the element, if any. -/
def controlsOf (s : AnimModuleState) : Option Handle :=
  s.state.bind (fun st => st.controls)

/-- The 9-way anchor-placement grid (helpers/types.ts AnchorPlacement). -/
inductive AnchorPlacement
  | topTop
  | topCenter
  | topBottom
  | centerTop
  | centerCenter
  | centerBottom
  | bottomTop
  | bottomCenter
  | bottomBottom
deriving DecidableEq

/-- Modelled from the spec: getPositionIn of helpers/position-calculator.ts,
whose implementation is absent from src (only its test suite is present).
Per spec section 4.1: base value is the target's document offsetTop minus the
viewport height; the 9-way anchor-placement table then adds 0, half or all of
the viewport height combined with 0, half or all of the target height
(default placement top-bottom adds nothing); the configured pixel offset is
added last.  The anchor-selector indirection is modelled by passing the
resolved target's geometry directly. -/
def getPositionIn (offsetTop targetHeight windowHeight offset : ℚ)
    (anchorPlacement : AnchorPlacement) : ℚ :=
  let base := offsetTop - windowHeight
  let adjusted :=
    match anchorPlacement with
    | AnchorPlacement.topBottom => base
    | AnchorPlacement.centerBottom => base + targetHeight / 2
    | AnchorPlacement.bottomBottom => base + targetHeight
    | AnchorPlacement.topCenter => base + windowHeight / 2
    | AnchorPlacement.centerCenter => base + windowHeight / 2 + targetHeight / 2
    | AnchorPlacement.bottomCenter => base + windowHeight / 2 + targetHeight
    | AnchorPlacement.topTop => base + windowHeight
    | AnchorPlacement.centerTop => base + windowHeight + targetHeight / 2
    | AnchorPlacement.bottomTop => base + windowHeight + targetHeight
  adjusted + offset

/-- A DOM node as the registry sees it: an identity and the value of its
data-mos attribute (none = attribute absent). -/
structure DomNode where
  id : ℕ
  mosAttr : Option String
deriving DecidableEq

/-- A prepared registry entry (helpers/elements.ts).  Option resolution and
trigger positions do not affect the registry's multiplicity and are
omitted; the fresh animation state fields are kept. -/
structure PreparedEntry where
  node : DomNode
  animated : Bool
  isReversing : Bool
deriving DecidableEq

/-- helpers/elements.ts prepareElement: nodes without a truthy data-mos
attribute value (absent attribute, or the falsy empty string) are skipped;
otherwise an entry with fresh state is produced. -/
def prepareElement (element : DomNode) : Option PreparedEntry :=
  match element.mosAttr with
  | Option.none => Option.none
  | some animationName =>
    if animationName = "" then Option.none
    else some { node := element, animated := false, isReversing := false }

/-- helpers/elements.ts prepareElements: clears the registry, then pushes
the prepared entry of every input node that prepareElement accepts, in
order, with no duplicate check. -/
def prepareElements (elements : List DomNode) : List PreparedEntry :=
  elements.filterMap prepareElement

/-- A tracked entry of the scroll handler's own array
(helpers/scroll-handler.ts trackedElements; the DOM node is its identity). -/
structure TrackedElement where
  element : ℕ
  options : ElementOptions
  position : TriggerPosition
  animated : Bool
  isReversing : Bool
deriving DecidableEq

/-- helpers/scroll-handler.ts observeElement restricted to the tracking
array: when findTrackedElementIndex finds the element (first match), only
that entry's options are replaced; otherwise addElementToTracking appends a
fresh entry with position in 0, out false and cleared flags.  The
find-first-index-then-assign of the source is implemented by structural
recursion; the delay bookkeeping and listener setup never touch the array. -/
def observeElement : List TrackedElement → ℕ → ElementOptions → List TrackedElement
  | [], element, options =>
    [{ element := element, options := options
       position := { inPos := 0, out := Option.none }
       animated := false, isReversing := false }]
  | t :: rest, element, options =>
    if t.element = element then { t with options := options } :: rest
    else t :: observeElement rest element options

/-- A resolved easing value as helpers/easing.ts produces it: the EASINGS
table maps keywords to motion keyword strings, to undefined (the "ease"
entry), or to cubic-bezier quadruples.  The JS distinction between a null
result (parse failure, callers must fall back) and an undefined value is
kept by returning Option EasingVal with none = null and
some EasingVal.undef = undefined. -/
inductive EasingVal
  | undef
  | keyword (name : String)
  | bezier (x1 y1 x2 y2 : ℚ)
deriving DecidableEq

/-- helpers/constants.ts EASINGS: keyword to cubic-bezier mapping. -/
def EASINGS : List (String × EasingVal) :=
  [ ("linear", EasingVal.keyword "linear"),
    ("ease", EasingVal.undef),
    ("ease-in", EasingVal.keyword "easeIn"),
    ("ease-out", EasingVal.keyword "easeOut"),
    ("ease-in-out", EasingVal.keyword "easeInOut"),
    ("circ-in", EasingVal.keyword "circIn"),
    ("circ-out", EasingVal.keyword "circOut"),
    ("circ-in-out", EasingVal.keyword "circInOut"),
    ("back-in", EasingVal.keyword "backIn"),
    ("back-out", EasingVal.keyword "backOut"),
    ("back-in-out", EasingVal.keyword "backInOut"),
    ("anticipate", EasingVal.keyword "anticipate"),
    ("ease-in-back", EasingVal.bezier (6/10) (-28/100) (735/1000) (45/1000)),
    ("ease-out-back", EasingVal.bezier (175/1000) (885/1000) (32/100) (1275/1000)),
    ("ease-in-out-back", EasingVal.bezier (68/100) (-55/100) (265/1000) (155/100)),
    ("ease-in-sine", EasingVal.bezier (47/100) 0 (745/1000) (715/1000)),
    ("ease-out-sine", EasingVal.bezier (39/100) (575/1000) (565/1000) 1),
    ("ease-in-out-sine", EasingVal.bezier (445/1000) (5/100) (55/100) (95/100)),
    ("ease-in-quad", EasingVal.bezier (55/100) (85/1000) (68/100) (53/100)),
    ("ease-out-quad", EasingVal.bezier (25/100) (46/100) (45/100) (94/100)),
    ("ease-in-out-quad", EasingVal.bezier (455/1000) (3/100) (515/1000) (955/1000)),
    ("ease-in-cubic", EasingVal.bezier (55/100) (85/1000) (68/100) (53/100)),
    ("ease-out-cubic", EasingVal.bezier (25/100) (46/100) (45/100) (94/100)),
    ("ease-in-out-cubic", EasingVal.bezier (455/1000) (3/100) (515/1000) (955/1000)),
    ("ease-in-quart", EasingVal.bezier (55/100) (85/1000) (68/100) (53/100)),
    ("ease-out-quart", EasingVal.bezier (25/100) (46/100) (45/100) (94/100)),
    ("ease-in-out-quart", EasingVal.bezier (455/1000) (3/100) (515/1000) (955/1000)) ]

/-- helpers/easing.ts resolveEasing: non-string input yields undefined;
then custom easings (hasOwnProperty becomes lookup), then the EASINGS
table; then the two regex parses of the trimmed candidate, whose results
are supplied as oracle arguments cubicMatch (the cubic-bezier(...) form)
and arrayMatch (the bare or bracketed four-number form) since regex
matching itself is outside the model; ℚ makes the Number.isFinite guards
vacuous.  Everything failing yields null (none), which signals the caller
to fall back. -/
def resolveEasing (customEasings : List (String × EasingVal)) (input : Option String)
    (cubicMatch arrayMatch : Option (ℚ × ℚ × ℚ × ℚ)) : Option EasingVal :=
  match input with
  | Option.none => some EasingVal.undef
  | some s =>
    match List.lookup s customEasings with
    | some v => some v
    | Option.none =>
      match List.lookup s EASINGS with
      | some v => some v
      | Option.none =>
        match cubicMatch with
        | some (a, b, c, d) => some (EasingVal.bezier a b c d)
        | Option.none =>
          match arrayMatch with
          | some (a, b, c, d) => some (EasingVal.bezier a b c d)
          | Option.none => Option.none

/-- helpers/animations.ts resolveAnimationEasing: resolve the configured
easing; when the configured easing is truthy but resolution returned null,
emit a console warning (the Bool component) and fall back to resolving
DEFAULT_OPTIONS.easing; finally a null easing is passed on as undefined. -/
def resolveAnimationEasing (customEasings : List (String × EasingVal))
    (options : ElementOptions) (cubicMatch arrayMatch : Option (ℚ × ℚ × ℚ × ℚ)) :
    Option EasingVal × Bool :=
  let easing := resolveEasing customEasings (some options.easing) cubicMatch arrayMatch
  let fallback :=
    if options.easing ≠ "" ∧ easing = Option.none then
      (resolveEasing customEasings (some DEFAULT_OPTIONS.easing) Option.none Option.none, true)
    else
      (easing, false)
  ( match fallback.1 with
    | Option.none => some EasingVal.undef
    | some v => some v,
    fallback.2 )

/-- A JavaScript value as seen by truthiness coercion (helpers/utils.ts
"!!disable()"; NaN is not modelled). -/
inductive JSValue
  | undef
  | null
  | boolean (b : Bool)
  | number (q : ℚ)
  | string (s : String)
deriving DecidableEq

/-- JS boolean coercion. -/
def truthy : JSValue → Bool
  | JSValue.undef => false
  | JSValue.null => false
  | JSValue.boolean b => b
  | JSValue.number q => decide (q ≠ 0)
  | JSValue.string s => decide (s ≠ "")

/-- helpers/types.ts DeviceDisable: boolean | "mobile" | "phone" | "tablet"
| function.  A function argument is modelled by its call outcome: error
models a throw, ok v a normal return of v. -/
inductive DeviceDisable
  | boolValue (b : Bool)
  | fn (outcome : Except Unit JSValue)
  | phone
  | tablet
  | mobile

/-- helpers/utils.ts isDisabled: booleans pass through; a function is
called inside try/catch, a throw yields false, a normal return is coerced
with "!!"; the device keywords compare window.innerWidth (windowWidth none
models typeof window === "undefined", which returns false before the
switch). -/
def isDisabled (disable : DeviceDisable) (windowWidth : Option ℚ) : Bool :=
  match disable with
  | DeviceDisable.boolValue b => b
  | DeviceDisable.fn outcome =>
    match outcome with
    | Except.error _ => false
    | Except.ok v => truthy v
  | DeviceDisable.phone =>
    match windowWidth with
    | Option.none => false
    | some width => decide (width < 768)
  | DeviceDisable.tablet =>
    match windowWidth with
    | Option.none => false
    | some width => decide (768 ≤ width) && decide (width < 1024)
  | DeviceDisable.mobile =>
    match windowWidth with
    | Option.none => false
    | some width => decide (width < 1024)

end MOS

/-- C7: on each throttled scroll-tracker invocation the direction becomes
"down" iff the current scrollY is both greater than the last recorded value
and greater than zero, "up" iff it is less than the last recorded value,
"none" otherwise, and lastScrollY is updated to the current value
unconditionally in every branch. -/
theorem MOS.scroll_tracker_direction (last cur : ℚ) :
    ((MOS.handleScrollInternal last cur).1 = ScrollDirection.down ↔ last < cur ∧ 0 < cur)
    ∧ ((MOS.handleScrollInternal last cur).1 = ScrollDirection.up ↔ cur < last)
    ∧ ((MOS.handleScrollInternal last cur).1 = ScrollDirection.none ↔
        ¬(last < cur ∧ 0 < cur) ∧ ¬(cur < last))
    ∧ (MOS.handleScrollInternal last cur).2 = cur := by
  unfold MOS.handleScrollInternal
  by_cases h1 : last < cur ∧ 0 < cur
  · have h2 : ¬ cur < last := not_lt.mpr (le_of_lt h1.1)
    simp [h1, h2]
  · by_cases h2 : cur < last
    · simp [h1, h2]
    · simp [h1, h2]

/-- C6 counterexample: at the configured distance 100 (the library default)
no substitution is performed, so the generated keyframes for "slide-left"
keep the preset-table X track [100, 0] rather than the claimed [-100, 0]. -/
theorem MOS.distance_sign_default_counterexample :
    (MOS.resolveAnimationKeyframes []
      { keyframes := "slide-left", distance := 100, easing := "ease",
        once := false, mirror := false, offset := 120 }).translateX = some (100, 0)
    ∧ (MOS.resolveAnimationKeyframes []
      { keyframes := "slide-left", distance := 100, easing := "ease",
        once := false, mirror := false, offset := 120 }).translateX ≠ some (-100, 0) := by
  constructor
  · decide
  · decide

/-- C6 amended: for every configured distance D other than the default 100,
the generated keyframes substitute D with the sign convention fade-up Y
[D, 0], fade-down Y [-D, 0], slide-left X [-D, 0], slide-right X [D, 0]
(in particular distance 80 with fade-up yields translateY [80, 0]); at the
default distance 100 the preset table is used untouched, which yields
translateX [100, 0] for slide-left and [-100, 0] for slide-right. -/
theorem MOS.distance_sign_table (D : ℚ) (hD : D ≠ 100) :
    (MOS.resolveAnimationKeyframes []
      { keyframes := "fade-up", distance := D, easing := "ease",
        once := false, mirror := false, offset := 120 }).translateY = some (D, 0)
    ∧ (MOS.resolveAnimationKeyframes []
      { keyframes := "fade-down", distance := D, easing := "ease",
        once := false, mirror := false, offset := 120 }).translateY = some (-D, 0)
    ∧ (MOS.resolveAnimationKeyframes []
      { keyframes := "slide-left", distance := D, easing := "ease",
        once := false, mirror := false, offset := 120 }).translateX = some (-D, 0)
    ∧ (MOS.resolveAnimationKeyframes []
      { keyframes := "slide-right", distance := D, easing := "ease",
        once := false, mirror := false, offset := 120 }).translateX = some (D, 0)
    ∧ (MOS.resolveAnimationKeyframes []
      { keyframes := "slide-left", distance := 100, easing := "ease",
        once := false, mirror := false, offset := 120 }).translateX = some (100, 0)
    ∧ (MOS.resolveAnimationKeyframes []
      { keyframes := "slide-right", distance := 100, easing := "ease",
        once := false, mirror := false, offset := 120 }).translateX = some (-100, 0) := by
  have h : D ≠ MOS.DEFAULT_OPTIONS.distance := by
    simpa [MOS.DEFAULT_OPTIONS] using hD
  refine ⟨?_, ?_, ?_, ?_, by decide, by decide⟩ <;>
    simp [MOS.resolveAnimationKeyframes, MOS.resolveKeyframes,
      MOS.getKeyframesWithDistance, MOS.KEYFRAMES_PRESETS, h]

/-- C6 witness: the amended sign table evaluated at the concrete distance 80:
fade-up generates translateY [80, 0]. -/
theorem MOS.distance_sign_table_witness :
    ((80 : ℚ) ≠ 100)
    ∧ (MOS.resolveAnimationKeyframes []
      { keyframes := "fade-up", distance := 80, easing := "ease",
        once := false, mirror := false, offset := 120 }).translateY = some (80, 0) :=
  ⟨by decide, (MOS.distance_sign_table 80 (by decide)).1⟩

/-- C1: on a scroll tick the first-match policy of
updateElementAnimationState is, in order: (1) mirror enabled, position.out
not the disabled sentinel, scrollY at or past it, and once disabled:
reverse (hideElement); (2) otherwise, scrollY at or past position.in: play
forward (showElement); (3) otherwise, animated and once disabled: reverse
(hideElement); (4) otherwise no change.  In particular an element past both
thresholds with mirror on is reversed, not played. -/
theorem MOS.scroll_tick_policy (e : MOS.MosElement) (y : ℚ) :
    (∀ o : ℚ, e.options.mirror = true → e.options.once = false →
      e.position.out = some o → o ≤ y →
      MOS.updateElementAnimationState e y = MOS.hideElement e)
    ∧ ((e.options.mirror = false ∨ e.options.once = true
        ∨ e.position.out = Option.none
        ∨ ∃ o : ℚ, e.position.out = some o ∧ y < o) →
      e.position.inPos ≤ y →
      MOS.updateElementAnimationState e y = MOS.showElement e)
    ∧ ((e.options.mirror = false ∨ e.options.once = true
        ∨ e.position.out = Option.none
        ∨ ∃ o : ℚ, e.position.out = some o ∧ y < o) →
      y < e.position.inPos → e.animated = true → e.options.once = false →
      MOS.updateElementAnimationState e y = MOS.hideElement e)
    ∧ ((e.options.mirror = false ∨ e.options.once = true
        ∨ e.position.out = Option.none
        ∨ ∃ o : ℚ, e.position.out = some o ∧ y < o) →
      y < e.position.inPos → (e.animated = false ∨ e.options.once = true) →
      MOS.updateElementAnimationState e y = (e, Option.none))
    ∧ (∀ o : ℚ, e.options.mirror = true → e.options.once = false →
      e.position.out = some o → o ≤ y → e.position.inPos ≤ y →
      e.animated = true → e.isReversing = false →
      MOS.updateElementAnimationState e y
        = ({ e with isReversing := true }, some MOS.EngineCall.reverse)) := by
  have hfail : (e.options.mirror = false ∨ e.options.once = true
      ∨ e.position.out = Option.none
      ∨ ∃ o : ℚ, e.position.out = some o ∧ y < o) →
      (e.options.mirror && MOS.outReached e.position.out y && !e.options.once) = false := by
    rintro (h | h | h | ⟨o, ho, hlt⟩)
    · simp [h]
    · simp [h]
    · simp [MOS.outReached, h]
    · simp [MOS.outReached, ho, not_le.mpr hlt]
  refine ⟨?_, ?_, ?_, ?_, ?_⟩
  · intro o hm ho hout hle
    simp [MOS.updateElementAnimationState, MOS.outReached, hm, ho, hout, hle]
  · intro h hin
    simp [MOS.updateElementAnimationState, hfail h, hin]
  · intro h hnin hanim honce
    simp [MOS.updateElementAnimationState, hfail h, not_le.mpr hnin, hanim, honce]
  · intro h hnin hrest
    rcases hrest with hrest | hrest <;>
      simp [MOS.updateElementAnimationState, hfail h, not_le.mpr hnin, hrest]
  · intro o hm ho hout hle _ hanim hrev
    simp [MOS.updateElementAnimationState, MOS.outReached, hm, ho, hout, hle,
      MOS.hideElement, hanim, hrev]

/-- C1 witness: a mirrored, animated element past both its entry threshold
(320) and exit threshold (1080) at scrollY 2000 is reversed, not played. -/
theorem MOS.scroll_tick_policy_witness :
    MOS.updateElementAnimationState
      { options := { keyframes := "fade", distance := 100, easing := "ease"
                     once := false, mirror := true, offset := 120 }
        position := { inPos := 320, out := some 1080 }
        animated := true, isReversing := false } 2000
    = ({ options := { keyframes := "fade", distance := 100, easing := "ease"
                      once := false, mirror := true, offset := 120 }
         position := { inPos := 320, out := some 1080 }
         animated := true, isReversing := true }, some MOS.EngineCall.reverse) :=
  (MOS.scroll_tick_policy
    { options := { keyframes := "fade", distance := 100, easing := "ease"
                   once := false, mirror := true, offset := 120 }
      position := { inPos := 320, out := some 1080 }
      animated := true, isReversing := false } 2000).2.2.2.2
    1080 rfl rfl rfl (by decide) (by decide) rfl rfl

/-- C2: with mirror enabled and once disabled, driving scrollY from below
the entry threshold to past it (y1), then past the exit threshold (y2),
then back below the entry threshold (y3), with the reverse animation's
completion handler firing in between, returns the tracked element to
exactly its pre-scroll state: animated = false and isReversing = false
(indeed the whole MosElement record is restored). -/
theorem MOS.mirror_round_trip (opts : MOS.ElementOptions) (pin o y1 y2 y3 : ℚ)
    (hm : opts.mirror = true) (ho : opts.once = false)
    (h1 : pin ≤ y1) (h2 : y1 < o) (h3 : o ≤ y2) (h4 : y3 < pin) :
    (MOS.updateElementAnimationState
      (MOS.reverseAnimationCompletion
        (MOS.updateElementAnimationState
          ((MOS.updateElementAnimationState
            { options := opts, position := { inPos := pin, out := some o }
              animated := false, isReversing := false } y1).1) y2).1) y3).1
    = { options := opts, position := { inPos := pin, out := some o }
        animated := false, isReversing := false } := by
  have s1 : (MOS.updateElementAnimationState
      { options := opts, position := { inPos := pin, out := some o }
        animated := false, isReversing := false } y1).1
      = { options := opts, position := { inPos := pin, out := some o }
          animated := true, isReversing := false } := by
    simp [MOS.updateElementAnimationState, MOS.outReached, hm, ho,
      not_le.mpr h2, h1, MOS.showElement]
  have s2 : (MOS.updateElementAnimationState
      { options := opts, position := { inPos := pin, out := some o }
        animated := true, isReversing := false } y2).1
      = { options := opts, position := { inPos := pin, out := some o }
          animated := true, isReversing := true } := by
    simp [MOS.updateElementAnimationState, MOS.outReached, hm, ho, h3,
      MOS.hideElement]
  have s3 : MOS.reverseAnimationCompletion
      { options := opts, position := { inPos := pin, out := some o }
        animated := true, isReversing := true }
      = { options := opts, position := { inPos := pin, out := some o }
          animated := false, isReversing := false } := by
    simp [MOS.reverseAnimationCompletion]
  rw [s1, s2, s3]
  by_cases hoy : o ≤ y3
  · simp [MOS.updateElementAnimationState, MOS.outReached, hm, ho, hoy,
      MOS.hideElement]
  · simp [MOS.updateElementAnimationState, MOS.outReached, hm, ho, hoy,
      not_le.mpr h4]

/-- C2 witness: the round trip at the end-to-end scenario numbers of the
spec (entry 320, exit 1080, scroll 0 to 500 to 1200 and back to 0). -/
theorem MOS.mirror_round_trip_witness :
    (MOS.updateElementAnimationState
      (MOS.reverseAnimationCompletion
        (MOS.updateElementAnimationState
          ((MOS.updateElementAnimationState
            { options := { keyframes := "fade", distance := 100, easing := "ease"
                           once := false, mirror := true, offset := 120 }
              position := { inPos := 320, out := some 1080 }
              animated := false, isReversing := false } 500).1) 1200).1) 0).1
    = { options := { keyframes := "fade", distance := 100, easing := "ease"
                     once := false, mirror := true, offset := 120 }
        position := { inPos := 320, out := some 1080 }
        animated := false, isReversing := false } :=
  MOS.mirror_round_trip
    { keyframes := "fade", distance := 100, easing := "ease"
      once := false, mirror := true, offset := 120 }
    320 1080 500 1200 0 rfl rfl (by decide) (by decide) (by decide) (by decide)

/-- Helper: with once = true a single scroll tick never issues a reverse
call and leaves the element's options untouched. -/
theorem once_tick_no_reverse (e : MOS.MosElement) (y : ℚ)
    (h : e.options.once = true) :
    (MOS.updateElementAnimationState e y).1.options = e.options
    ∧ (MOS.updateElementAnimationState e y).2 ≠ some MOS.EngineCall.reverse := by
  obtain ⟨opts, pos, anim, rev⟩ := e
  have ho : opts.once = true := h
  cases anim <;> cases rev <;> by_cases hin : pos.inPos ≤ y <;>
    simp [MOS.updateElementAnimationState, MOS.showElement, MOS.hideElement, ho, hin]

/-- C3: once-only semantics.  (1) With once = true, no sequence of scroll
ticks ever issues a reverse call, whatever state the element starts in.
(2) When the forward animation finishes with once = true, the stored handle
is stopped.  (3) The stopped flag is permanent: neither play nor reverse
clears it. -/
theorem MOS.once_terminal :
    (∀ (e : MOS.MosElement) (ys : List ℚ), e.options.once = true →
      (MOS.runScrollSequence e ys).2 = false)
    ∧ (∀ (opts : MOS.ElementOptions) (s : MOS.AnimModuleState)
        (st : MOS.ElementAnimationState) (c : MOS.Handle),
      opts.once = true → s.state = some st → st.isReversing = false →
      st.controls = some c →
      MOS.controlsOf (MOS.animationFinished opts s) = some { c with stopped := true })
    ∧ (∀ (s : MOS.AnimModuleState) (c : MOS.Handle),
      MOS.controlsOf s = some c → c.stopped = true →
      (∃ c2 : MOS.Handle, MOS.controlsOf (MOS.play s) = some c2 ∧ c2.stopped = true)
      ∧ (∀ wb : Bool, ∃ c2 : MOS.Handle,
          MOS.controlsOf (MOS.reverse s wb) = some c2 ∧ c2.stopped = true)) := by
  refine ⟨?_, ?_, ?_⟩
  · intro e ys h
    have key : ∀ (l : List ℚ) (p : MOS.MosElement × Bool),
        p.1.options.once = true → p.2 = false →
        (l.foldl (fun acc y =>
          let step := MOS.updateElementAnimationState acc.1 y
          (step.1, acc.2 || decide (step.2 = some MOS.EngineCall.reverse))) p).2 = false := by
      intro l
      induction l with
      | nil => intro p h1 h2; simpa using h2
      | cons y l ih =>
        intro p h1 h2
        simp only [List.foldl_cons]
        refine ih _ ?_ ?_
        · rw [(once_tick_no_reverse p.1 y h1).1]; exact h1
        · have := (once_tick_no_reverse p.1 y h1).2
          simp [h2, this]
    exact key ys (e, false) h rfl
  · intro opts s st c honce hs hrev hc
    simp [MOS.animationFinished, hs, hrev, honce, MOS.controlsOf, hc]
  · intro s c hc hstop
    have hsplit : ∃ st : MOS.ElementAnimationState,
        s.state = some st ∧ st.controls = some c := by
      cases hs : s.state with
      | none => rw [MOS.controlsOf, hs] at hc; simp at hc
      | some st => rw [MOS.controlsOf, hs] at hc; exact ⟨st, rfl, hc⟩
    obtain ⟨st, hs, hstc⟩ := hsplit
    constructor
    · by_cases hguard : (s.active && !st.isReversing) = true
      · refine ⟨c, ?_, hstop⟩
        simp [MOS.play, MOS.ensureAnimationControls, hs, hstc, hguard, MOS.controlsOf]
      · refine ⟨{ c with speed := 1, playing := true }, ?_, hstop⟩
        simp [MOS.play, MOS.ensureAnimationControls, hs, hstc, hguard, MOS.controlsOf]
    · intro wb
      refine ⟨{ c with speed := -1, playing := true }, ?_, hstop⟩
      simp [MOS.reverse, hs, hstc, MOS.controlsOf]

/-- C3 witness: a once-only element driven through entry, past exit and
back never receives a reverse call, and the finished forward handle of a
once-only element comes back stopped. -/
theorem MOS.once_terminal_witness :
    (MOS.runScrollSequence
      { options := { keyframes := "fade", distance := 100, easing := "ease"
                     once := true, mirror := false, offset := 120 }
        position := { inPos := 320, out := Option.none }
        animated := false, isReversing := false } [0, 500, 1200, 0]).2 = false
    ∧ MOS.controlsOf (MOS.animationFinished
        { keyframes := "fade", distance := 100, easing := "ease"
          once := true, mirror := false, offset := 120 }
        { state := some { animated := true, isReversing := false
                          controls := some { time := 0, speed := 1, playing := true
                                             stopped := false, completed := false, id := 0 }
                          reverseCallback := false }
          active := true, createCount := 1 })
      = some { time := 0, speed := 1, playing := true
               stopped := true, completed := false, id := 0 } :=
  ⟨MOS.once_terminal.1
    { options := { keyframes := "fade", distance := 100, easing := "ease"
                   once := true, mirror := false, offset := 120 }
      position := { inPos := 320, out := Option.none }
      animated := false, isReversing := false } [0, 500, 1200, 0] rfl,
   MOS.once_terminal.2.1
    { keyframes := "fade", distance := 100, easing := "ease"
      once := true, mirror := false, offset := 120 }
    { state := some { animated := true, isReversing := false
                      controls := some { time := 0, speed := 1, playing := true
                                         stopped := false, completed := false, id := 0 }
                      reverseCallback := false }
      active := true, createCount := 1 }
    { animated := true, isReversing := false
      controls := some { time := 0, speed := 1, playing := true
                         stopped := false, completed := false, id := 0 }
      reverseCallback := false }
    { time := 0, speed := 1, playing := true
      stopped := false, completed := false, id := 0 }
    rfl rfl rfl rfl⟩

/-- C4: idempotent play.  (1) At the tracked-element level, showElement on
an element with animated = true and isReversing = false issues no play call
at all.  (2) ensureAnimationControls returns the already-stored handle
unchanged, so the animate factory is not invoked again once a handle
exists.  (3) play on an element whose handle exists never increments the
factory-invocation count, keeps the same handle (same id) and never touches
the animation clock (controls.time).  (4) play on an element that is
actively animating forward (in activeAnimations, not reversing) is a
complete no-op. -/
theorem MOS.play_idempotent :
    (∀ e : MOS.MosElement, e.animated = true → e.isReversing = false →
      MOS.showElement e = (e, Option.none))
    ∧ (∀ (s : MOS.AnimModuleState) (st : MOS.ElementAnimationState) (c : MOS.Handle),
      s.state = some st → st.controls = some c →
      MOS.ensureAnimationControls s = (s, some c))
    ∧ (∀ (s : MOS.AnimModuleState) (st : MOS.ElementAnimationState) (c : MOS.Handle),
      s.state = some st → st.controls = some c →
      (MOS.play s).createCount = s.createCount
      ∧ ∃ c2 : MOS.Handle, MOS.controlsOf (MOS.play s) = some c2
          ∧ c2.id = c.id ∧ c2.time = c.time)
    ∧ (∀ (s : MOS.AnimModuleState) (st : MOS.ElementAnimationState) (c : MOS.Handle),
      s.state = some st → st.controls = some c →
      s.active = true → st.isReversing = false →
      MOS.play s = s) := by
  refine ⟨?_, ?_, ?_, ?_⟩
  · intro e ha hr
    simp [MOS.showElement, ha, hr]
  · intro s st c hs hc
    simp [MOS.ensureAnimationControls, hs, hc]
  · intro s st c hs hc
    by_cases hguard : (s.active && !st.isReversing) = true
    · constructor
      · simp [MOS.play, MOS.ensureAnimationControls, hs, hc, hguard]
      · exact ⟨c, by simp [MOS.play, MOS.ensureAnimationControls, hs, hc, hguard,
          MOS.controlsOf], rfl, rfl⟩
    · constructor
      · simp [MOS.play, MOS.ensureAnimationControls, hs, hc, hguard]
      · exact ⟨{ c with speed := 1, playing := true },
          by simp [MOS.play, MOS.ensureAnimationControls, hs, hc, hguard,
            MOS.controlsOf], rfl, rfl⟩
  · intro s st c hs hc hact hrev
    simp [MOS.play, MOS.ensureAnimationControls, hs, hc, hact, hrev]

/-- C4 witness: a concrete element actively animating forward with an
existing handle: a second play is a complete no-op and ensure returns the
stored handle. -/
theorem MOS.play_idempotent_witness :
    MOS.play
      { state := some { animated := true, isReversing := false
                        controls := some { time := 3, speed := 1, playing := true
                                           stopped := false, completed := false, id := 0 }
                        reverseCallback := false }
        active := true, createCount := 1 }
    = { state := some { animated := true, isReversing := false
                        controls := some { time := 3, speed := 1, playing := true
                                           stopped := false, completed := false, id := 0 }
                        reverseCallback := false }
        active := true, createCount := 1 }
    ∧ MOS.ensureAnimationControls
      { state := some { animated := true, isReversing := false
                        controls := some { time := 3, speed := 1, playing := true
                                           stopped := false, completed := false, id := 0 }
                        reverseCallback := false }
        active := true, createCount := 1 }
    = ({ state := some { animated := true, isReversing := false
                         controls := some { time := 3, speed := 1, playing := true
                                            stopped := false, completed := false, id := 0 }
                         reverseCallback := false }
         active := true, createCount := 1 },
       some { time := 3, speed := 1, playing := true
              stopped := false, completed := false, id := 0 }) :=
  ⟨MOS.play_idempotent.2.2.2
    { state := some { animated := true, isReversing := false
                      controls := some { time := 3, speed := 1, playing := true
                                         stopped := false, completed := false, id := 0 }
                      reverseCallback := false }
      active := true, createCount := 1 }
    { animated := true, isReversing := false
      controls := some { time := 3, speed := 1, playing := true
                         stopped := false, completed := false, id := 0 }
      reverseCallback := false }
    { time := 3, speed := 1, playing := true
      stopped := false, completed := false, id := 0 }
    rfl rfl rfl rfl,
   MOS.play_idempotent.2.1
    { state := some { animated := true, isReversing := false
                      controls := some { time := 3, speed := 1, playing := true
                                         stopped := false, completed := false, id := 0 }
                      reverseCallback := false }
      active := true, createCount := 1 }
    { animated := true, isReversing := false
      controls := some { time := 3, speed := 1, playing := true
                         stopped := false, completed := false, id := 0 }
      reverseCallback := false }
    { time := 3, speed := 1, playing := true
      stopped := false, completed := false, id := 0 }
    rfl rfl⟩

/-- C5: anchor-placement trigger math.  For offsetTop 100, height 50,
viewport height 800 and configured offset 0, getPositionIn yields -275
under center-center and -700 under the default top-bottom; and for all
placements the configured pixel offset is added last (shifting the
zero-offset result by exactly the offset). -/
theorem MOS.anchor_placement_trigger_math :
    MOS.getPositionIn 100 50 800 0 MOS.AnchorPlacement.centerCenter = -275
    ∧ MOS.getPositionIn 100 50 800 0 MOS.AnchorPlacement.topBottom = -700
    ∧ ∀ (p : MOS.AnchorPlacement) (top h vh off : ℚ),
        MOS.getPositionIn top h vh off p = MOS.getPositionIn top h vh 0 p + off := by
  refine ⟨by norm_num [MOS.getPositionIn], by norm_num [MOS.getPositionIn], ?_⟩
  intro p top h vh off
  cases p <;> simp [MOS.getPositionIn]

/-- C8 counterexample: prepareElements performs no duplicate check — fed
the same attribute-bearing node twice it produces two registry entries for
that one node, so duplicates are not rejected during prepare. -/
theorem MOS.prepare_duplicate_counterexample :
    (MOS.prepareElements
      [{ id := 0, mosAttr := some "fade" }, { id := 0, mosAttr := some "fade" }]).countP
      (fun en => en.node.id == 0) = 2 := by
  decide

/-- Helper: a prepared entry carries exactly the node it was built from. -/
theorem prepareElement_node (n : MOS.DomNode) (en : MOS.PreparedEntry)
    (h : MOS.prepareElement n = some en) : en.node = n := by
  cases hattr : n.mosAttr with
  | none => simp [MOS.prepareElement, hattr] at h
  | some a =>
    by_cases ha : a = ""
    · simp [MOS.prepareElement, hattr, ha] at h
    · simp [MOS.prepareElement, hattr, ha] at h
      rw [← h]

/-- Helper: every prepared entry's node comes from the input list. -/
theorem prepareElements_node_mem (ns : List MOS.DomNode) (en : MOS.PreparedEntry)
    (h : en ∈ MOS.prepareElements ns) : en.node ∈ ns := by
  rw [MOS.prepareElements, List.mem_filterMap] at h
  obtain ⟨n, hn, hpn⟩ := h
  rw [prepareElement_node n en hpn]
  exact hn

/-- C8 amended: prepare skips nodes whose data-mos attribute is absent or
empty but does not deduplicate its input; one-entry-per-node holds exactly
when the input node list is duplicate-free (as querySelectorAll guarantees
for the real callers).  Observing an already-tracked node updates the
existing entry's options in place: the list of tracked node identities is
unchanged. -/
theorem MOS.registry_unique_per_node :
    (∀ ns : List MOS.DomNode, ns.Pairwise (fun a b => a.id ≠ b.id) →
      ∀ k : ℕ, (MOS.prepareElements ns).countP (fun en => en.node.id == k) ≤ 1)
    ∧ (∀ (tracked : List MOS.TrackedElement) (el : ℕ) (opts : MOS.ElementOptions),
      el ∈ tracked.map MOS.TrackedElement.element →
      (MOS.observeElement tracked el opts).map MOS.TrackedElement.element
        = tracked.map MOS.TrackedElement.element) := by
  constructor
  · intro ns hpw k
    induction ns with
    | nil => simp [MOS.prepareElements]
    | cons n rest ih =>
      have hpw2 : rest.Pairwise (fun a b => a.id ≠ b.id) :=
        (List.pairwise_cons.mp hpw).2
      have hhead : ∀ b ∈ rest, n.id ≠ b.id := (List.pairwise_cons.mp hpw).1
      cases hn : MOS.prepareElement n with
      | none =>
        simpa [MOS.prepareElements, List.filterMap_cons, hn] using ih hpw2
      | some en =>
        rw [MOS.prepareElements, List.filterMap_cons, hn]
        rw [List.countP_cons]
        by_cases hk : (en.node.id == k) = true
        · have hid : en.node.id = k := by simpa using hk
          have hnk : n.id = k := by
            have hnode := prepareElement_node n en hn
            rw [← hid, hnode]
          have hzero : (MOS.prepareElements rest).countP (fun e2 => e2.node.id == k) = 0 := by
            rw [List.countP_eq_zero]
            intro e2 he2
            have hmem := prepareElements_node_mem rest e2 he2
            have hne := hhead e2.node hmem
            rw [hnk] at hne
            simp only [beq_iff_eq]
            exact fun habs => hne habs.symm
          rw [MOS.prepareElements] at hzero
          simp [hzero, hk]
        · have := ih hpw2
          rw [MOS.prepareElements] at this
          simp [hk]
          exact this
  · intro tracked el opts hmem
    induction tracked with
    | nil => simp at hmem
    | cons t rest ih =>
      by_cases ht : t.element = el
      · simp [MOS.observeElement, ht]
      · have hrest : el ∈ rest.map MOS.TrackedElement.element := by
          rcases List.mem_cons.mp hmem with h | h
          · exact absurd h.symm ht
          · exact h
        simp [MOS.observeElement, ht, ih hrest]

/-- C8 witness: observing an already-tracked node (identity 0) with new
options leaves the tracked identity list unchanged, and a duplicate-free
two-node prepare yields at most one entry per node. -/
theorem MOS.registry_unique_per_node_witness :
    (MOS.observeElement
      [{ element := 0
         options := { keyframes := "fade", distance := 100, easing := "ease"
                      once := false, mirror := false, offset := 120 }
         position := { inPos := 0, out := Option.none }
         animated := false, isReversing := false }] 0
      { keyframes := "fade-up", distance := 80, easing := "ease"
        once := true, mirror := false, offset := 0 }).map MOS.TrackedElement.element
    = [{ element := 0
         options := { keyframes := "fade", distance := 100, easing := "ease"
                      once := false, mirror := false, offset := 120 }
         position := { inPos := 0, out := Option.none }
         animated := false, isReversing := false }].map MOS.TrackedElement.element
    ∧ (MOS.prepareElements
        [{ id := 0, mosAttr := some "fade" }, { id := 1, mosAttr := some "fade" }]).countP
        (fun en => en.node.id == 0) ≤ 1 :=
  ⟨MOS.registry_unique_per_node.2
    [{ element := 0
       options := { keyframes := "fade", distance := 100, easing := "ease"
                    once := false, mirror := false, offset := 120 }
       position := { inPos := 0, out := Option.none }
       animated := false, isReversing := false }] 0
    { keyframes := "fade-up", distance := 80, easing := "ease"
      once := true, mirror := false, offset := 0 }
    (by simp),
   MOS.registry_unique_per_node.1
    [{ id := 0, mosAttr := some "fade" }, { id := 1, mosAttr := some "fade" }]
    (by simp) 0⟩

/-- C9: resolution fallbacks never abort the animation-creation path.
(1) For every preset name with neither a user-registered nor a built-in
definition, resolveKeyframes returns the base "fade" preset.  (2) For every
truthy easing string whose resolution fails (null), resolveAnimationEasing
emits the console warning and falls back to resolving the default easing
keyword, mapping a null result to undefined rather than raising. -/
theorem MOS.resolution_fallbacks :
    (∀ (customKeyframes : List (String × MOS.Keyframes)) (name : String),
      List.lookup name customKeyframes = Option.none →
      List.lookup name MOS.KEYFRAMES_PRESETS = Option.none →
      MOS.resolveKeyframes customKeyframes name = MOS.fadePreset)
    ∧ (∀ (customEasings : List (String × MOS.EasingVal)) (options : MOS.ElementOptions)
        (cm am : Option (ℚ × ℚ × ℚ × ℚ)),
      options.easing ≠ "" →
      MOS.resolveEasing customEasings (some options.easing) cm am = Option.none →
      MOS.resolveAnimationEasing customEasings options cm am
        = (some ((MOS.resolveEasing customEasings (some MOS.DEFAULT_OPTIONS.easing)
            Option.none Option.none).getD MOS.EasingVal.undef), true)) := by
  constructor
  · intro customKeyframes name h1 h2
    simp [MOS.resolveKeyframes, h1, h2]
  · intro customEasings options cm am hne hnull
    rw [MOS.resolveAnimationEasing]
    simp only [hnull, ne_eq, hne, not_false_eq_true, and_self, if_true]
    cases hres : MOS.resolveEasing customEasings (some MOS.DEFAULT_OPTIONS.easing)
        Option.none Option.none <;> simp [hres]

/-- C9 witness: the unknown preset name "wobble" resolves to the base fade
preset, and the unparseable easing string "totally-invalid" resolves with a
warning to the default keyword's value (undefined, the EASINGS entry for
"ease"). -/
theorem MOS.resolution_fallbacks_witness :
    MOS.resolveKeyframes [] "wobble" = MOS.fadePreset
    ∧ MOS.resolveAnimationEasing []
      { keyframes := "fade", distance := 100, easing := "totally-invalid"
        once := false, mirror := false, offset := 120 } Option.none Option.none
      = (some ((MOS.resolveEasing [] (some MOS.DEFAULT_OPTIONS.easing)
          Option.none Option.none).getD MOS.EasingVal.undef), true) :=
  ⟨MOS.resolution_fallbacks.1 [] "wobble" rfl (by decide),
   MOS.resolution_fallbacks.2 []
    { keyframes := "fade", distance := 100, easing := "totally-invalid"
      once := false, mirror := false, offset := 120 } Option.none Option.none
    (by decide) (by decide)⟩

/-- C10: isDisabled never propagates an exception from a user-supplied
disable predicate: a function argument that throws yields false; one that
returns normally yields the boolean coercion of its return value; and a
plain boolean argument is returned unchanged — for every window width. -/
theorem MOS.isDisabled_predicate :
    (∀ (w : Option ℚ) (v : MOS.JSValue),
      MOS.isDisabled (MOS.DeviceDisable.fn (Except.ok v)) w = MOS.truthy v)
    ∧ (∀ (w : Option ℚ) (e : Unit),
      MOS.isDisabled (MOS.DeviceDisable.fn (Except.error e)) w = false)
    ∧ (∀ (w : Option ℚ) (b : Bool),
      MOS.isDisabled (MOS.DeviceDisable.boolValue b) w = b) :=
  ⟨fun _ _ => rfl, fun _ _ => rfl, fun _ _ => rfl⟩
